import Mathlib

/-!
WebView_DLL: the handle registry and the file-backed wrappers.

A shallow embedding of `src/webview_dll.cc` / `src/webview_dll.h`.

* Addresses (`webview_t`, `void *`, function pointers) and `WebViewHandle`
  values are natural numbers (64-bit address values); the null pointer is `0`
  for object pointers, and a nullable function pointer is an `Option`.
* `reinterpret_cast` between `webview_t` and `WebViewHandle` is the identity
  on the address value.
* The wrapped engine (`webview.h`) is external: every call the shim makes to
  it is appended to `State.calls`, and what the engine hands back
  (`webview_create`, `webview_get_window`, `webview_set_virtual_host_name`,
  `webview_version`) is an argument of the embedded function.
* A `const char *` argument is modelled by the bytes of the buffer it points
  to (`CBuf`), so that a buffer without a terminating zero can be told apart
  from a C string.
* A user callback that the trampoline calls is recorded in `State.invoked`;
  what the body of the callback does is the client's code and is not
  modelled.
* Dereferencing a null pointer is undefined behaviour; an operation that does
  so yields `Outcome.undefined` with the state reached at that point.
* C++ exceptions (`std::filesystem_error`, `std::bad_alloc`) are not
  modelled: `exists`, `absolute` and the allocation of the read buffer are
  taken to return.
-/

namespace WebViewDLL

/-- Models `typedef unsigned long long WebViewHandle;` -/
abbrev WebViewHandle := Nat

/-- Models `#define HANDLE_ERROR 0` -/
def HANDLE_ERROR : WebViewHandle := 0

/-- A function pointer value: `none` is `nullptr`, `some f` is the address of
the function `f`. -/
abbrev FnPtr := Option Nat

/-- The bytes of the buffer behind a `char *`, from the pointer to the end of
the allocation. -/
abbrev CBuf := List Nat

/-- Models `struct contextStore`: one field, default-initialised to `nullptr`. -/
structure ContextStore where
  dispatchCallback : FnPtr
  deriving DecidableEq, Repr

/-- Models `std::make_unique<ContextStore>()`: the default member initialiser. -/
def ContextStore.fresh : ContextStore := ⟨none⟩

/-- Models `std::unordered_map<WebViewHandle, std::unique_ptr<ContextStore>>`: the
entries of the table; a value `none` is a null `unique_ptr`. -/
abbrev Registry := List (WebViewHandle × Option ContextStore)

namespace Registry

/-- Models `unordered_map::count`: 1 when the key is present, 0 otherwise. -/
def count (m : Registry) (k : WebViewHandle) : Nat :=
  if m.any (fun e => e.1 == k) then 1 else 0

/-- Models `unordered_map::find`: the value stored under the key, if any. -/
def find (m : Registry) (k : WebViewHandle) : Option (Option ContextStore) :=
  (List.find? (fun e => e.1 == k) m).map Prod.snd

/-- Models `unordered_map::insert`: adds the pair unless the key is already present,
in which case the table is left as it is and the new value is dropped. -/
def insert (m : Registry) (k : WebViewHandle) (v : Option ContextStore) : Registry :=
  if m.any (fun e => e.1 == k) then m else m ++ [(k, v)]

/-- Models `unordered_map::erase(key)`: removes the entry under the key, if any. -/
def erase (m : Registry) (k : WebViewHandle) : Registry :=
  m.filter (fun e => !(e.1 == k))

/-- Models `unordered_map::operator[]`: when the key is absent, a value-initialised
(null) `unique_ptr` is inserted under it first. The table after the call. -/
def index (m : Registry) (k : WebViewHandle) : Registry :=
  insert m k none

/-- A write through the reference `operator[]` handed back: the value under
the key is replaced. -/
def assign (m : Registry) (k : WebViewHandle) (v : Option ContextStore) : Registry :=
  m.map (fun e => if e.1 == k then (e.1, v) else e)

/-- The keys of the table. -/
def keys (m : Registry) : List WebViewHandle :=
  m.map Prod.fst

end Registry

/-- The calls the shim makes to the wrapped engine, with their arguments in the
order of `webview.h`. The function handed to `webview_dispatch` is always the
trampoline lambda of `DispatchWebView`, so it is not an argument here. -/
inductive EngineCall where
  | webview_create (debug : Int) (wnd : Nat)
  | webview_destroy (w : Nat)
  | webview_run (w : Nat)
  | webview_run1 (w : Nat)
  | webview_terminate (w : Nat)
  | webview_dispatch (w : Nat) (arg : Nat)
  | webview_get_window (w : Nat)
  | webview_set_title (w : Nat) (title : CBuf)
  | webview_set_size (w : Nat) (width height hints : Int)
  | webview_navigate (w : Nat) (url : CBuf)
  | webview_set_html (w : Nat) (html : CBuf)
  | webview_init (w : Nat) (js : CBuf)
  | webview_eval (w : Nat) (js : CBuf)
  | webview_bind (w : Nat) (name : CBuf) (fn : FnPtr) (arg : Nat)
  | webview_unbind (w : Nat) (name : CBuf)
  | webview_return (w : Nat) (seq : CBuf) (status : Int) (result : CBuf)
  | webview_set_virtual_host_name (w : Nat) (url : CBuf) (folder : CBuf) (option : Int)
  | webview_version
  deriving DecidableEq, Repr

/-- One invocation of a user callback by the trampoline:
`(_contextStore->dispatchCallback)(_handle, _arg)`. -/
structure Invocation where
  fn : Nat
  handle : WebViewHandle
  arg : Nat
  deriving DecidableEq, Repr

/-- The process state the shim reads and writes: the global
`contextStoreMapping`, the engine calls made so far and the user callbacks
invoked so far (both oldest first). -/
structure State where
  contextStoreMapping : Registry
  calls : List EngineCall
  invoked : List Invocation
  deriving DecidableEq, Repr

/-- The state at program start: an empty table, nothing called. -/
def State.init : State := ⟨[], [], []⟩

/-- Models `reinterpret_cast<WebViewHandle>(webviewInstance)`. -/
def toHandle (webviewInstance : Nat) : WebViewHandle := webviewInstance

/-- Models `reinterpret_cast<webview_t>(handle)`. -/
def toInstance (handle : WebViewHandle) : Nat := handle

/-- Models `CreateWebViewInstance(debug, wnd)`; `webviewInstance` is what
`webview_create` returns (0 for `nullptr`). -/
def CreateWebViewInstance (s : State) (debug : Int) (wnd : Nat) (webviewInstance : Nat) :
    WebViewHandle × State :=
  let s1 : State :=
    ⟨s.contextStoreMapping, s.calls ++ [EngineCall.webview_create debug wnd], s.invoked⟩
  if webviewInstance = 0 then
    (HANDLE_ERROR, s1)
  else
    let handle := toHandle webviewInstance
    let contextStore := ContextStore.fresh
    (handle, ⟨s1.contextStoreMapping.insert handle (some contextStore), s1.calls, s1.invoked⟩)

/-- Models `DestroyWebView(handle)`. -/
def DestroyWebView (s : State) (handle : WebViewHandle) : State :=
  let webviewInstance := toInstance handle
  ⟨s.contextStoreMapping.erase handle,
    s.calls ++ [EngineCall.webview_destroy webviewInstance], s.invoked⟩

/-- Models `CheckWebViewExists(handle)`. -/
def CheckWebViewExists (s : State) (handle : WebViewHandle) : Int :=
  (s.contextStoreMapping.count handle : Nat)

/-- The result of an operation that can run into undefined behaviour: `ok s`
when every step is defined, `undefined s` when the code dereferences a null
pointer (or reads or writes past a buffer), with `s` the state reached at that
point. -/
inductive Outcome where
  | ok (s : State)
  | undefined (s : State)
  deriving DecidableEq, Repr

/-- The state an outcome carries. -/
def Outcome.state : Outcome → State
  | Outcome.ok s => s
  | Outcome.undefined s => s

/-- Models `DispatchWebView(handle, fn, arg)`: `contextStoreMapping[handle]`, the
write of `fn` through the `unique_ptr` found there, then `webview_dispatch`
with the trampoline lambda and `arg`. -/
def DispatchWebView (s : State) (handle : WebViewHandle) (fn : FnPtr) (arg : Nat) : Outcome :=
  let webviewInstance := toInstance handle
  let m := s.contextStoreMapping.index handle
  match m.find handle with
  | some (some _contextStore) =>
    Outcome.ok ⟨m.assign handle (some ⟨fn⟩),
      s.calls ++ [EngineCall.webview_dispatch webviewInstance arg], s.invoked⟩
  | _ => Outcome.undefined ⟨m, s.calls, s.invoked⟩

/-- The lambda `DispatchWebView` hands to `webview_dispatch`, run by the engine
with the native reference `_w` and the argument `_arg`. -/
def trampoline (s : State) (_w : Nat) (_arg : Nat) : Outcome :=
  let _handle := toHandle _w
  let m := s.contextStoreMapping.index _handle
  match m.find _handle with
  | some (some _contextStore) =>
    match _contextStore.dispatchCallback with
    | some f => Outcome.ok ⟨m, s.calls, s.invoked ++ [⟨f, _handle, _arg⟩]⟩
    | none => Outcome.undefined ⟨m, s.calls, s.invoked⟩
  | _ => Outcome.undefined ⟨m, s.calls, s.invoked⟩

/-- Appends one engine call; the table and the callbacks invoked stay. -/
def State.call (s : State) (c : EngineCall) : State :=
  ⟨s.contextStoreMapping, s.calls ++ [c], s.invoked⟩

/-- Models `RunWebView(handle)`. -/
def RunWebView (s : State) (handle : WebViewHandle) : State :=
  let webviewInstance := toInstance handle
  s.call (EngineCall.webview_run webviewInstance)

/-- Models `RunWebView1(handle)`. -/
def RunWebView1 (s : State) (handle : WebViewHandle) : State :=
  let webviewInstance := toInstance handle
  s.call (EngineCall.webview_run1 webviewInstance)

/-- Models `TerminateWebView(handle)`. -/
def TerminateWebView (s : State) (handle : WebViewHandle) : State :=
  let webviewInstance := toInstance handle
  s.call (EngineCall.webview_terminate webviewInstance)

/-- Models `GetWebViewWindow(handle)`; `window` is what `webview_get_window` returns. -/
def GetWebViewWindow (s : State) (handle : WebViewHandle) (window : Nat) : Nat × State :=
  let webviewInstance := toInstance handle
  (window, s.call (EngineCall.webview_get_window webviewInstance))

/-- Models `SetWebViewTitle(handle, title)`. -/
def SetWebViewTitle (s : State) (handle : WebViewHandle) (title : CBuf) : State :=
  let webviewInstance := toInstance handle
  s.call (EngineCall.webview_set_title webviewInstance title)

/-- Models `SetWebViewSize(handle, width, height, hints)`. -/
def SetWebViewSize (s : State) (handle : WebViewHandle) (width height hints : Int) : State :=
  let webviewInstance := toInstance handle
  s.call (EngineCall.webview_set_size webviewInstance width height hints)

/-- Models `NavigateWebView(handle, url)`. -/
def NavigateWebView (s : State) (handle : WebViewHandle) (url : CBuf) : State :=
  let webviewInstance := toInstance handle
  s.call (EngineCall.webview_navigate webviewInstance url)

/-- Models `SetWebViewHTML(handle, html)`. -/
def SetWebViewHTML (s : State) (handle : WebViewHandle) (html : CBuf) : State :=
  let webviewInstance := toInstance handle
  s.call (EngineCall.webview_set_html webviewInstance html)

/-- Models `InitWebView(handle, js)`. -/
def InitWebView (s : State) (handle : WebViewHandle) (js : CBuf) : State :=
  let webviewInstance := toInstance handle
  s.call (EngineCall.webview_init webviewInstance js)

/-- Models `EvalWebView(handle, js)`. -/
def EvalWebView (s : State) (handle : WebViewHandle) (js : CBuf) : State :=
  let webviewInstance := toInstance handle
  s.call (EngineCall.webview_eval webviewInstance js)

/-- Models `BindWebView(handle, name, fn, arg)`. -/
def BindWebView (s : State) (handle : WebViewHandle) (name : CBuf) (fn : FnPtr) (arg : Nat) :
    State :=
  let webviewInstance := toInstance handle
  s.call (EngineCall.webview_bind webviewInstance name fn arg)

/-- Models `UnBindWebView(handle, name)`. -/
def UnBindWebView (s : State) (handle : WebViewHandle) (name : CBuf) : State :=
  let webviewInstance := toInstance handle
  s.call (EngineCall.webview_unbind webviewInstance name)

/-- Models `ReturnWebView(handle, seq, status, result)`. -/
def ReturnWebView (s : State) (handle : WebViewHandle) (seq : CBuf) (status : Int)
    (result : CBuf) : State :=
  let webviewInstance := toInstance handle
  s.call (EngineCall.webview_return webviewInstance seq status result)

/-! ## Files -/

/-- A path: the characters of the path string. -/
abbrev Path := List Nat

/-- What `fopen(..., "rb")` hands back: `size` is what `ftell` reports after
`fseek(fp, 0, SEEK_END)`, `data` the bytes `fread` delivers from the start of
the file. For a file with content `b` read without an I/O error, `size` is
`b.length` and `data` is `b`. -/
structure OpenFile where
  size : Nat
  data : List Nat
  deriving DecidableEq, Repr

/-- The file system calls the wrappers make: `std::filesystem::exists`,
`std::filesystem::absolute` and `fopen` in mode `"rb"` (`none`: `nullptr`). -/
structure FileSystem where
  pathExists : Path → Bool
  absolute : Path → Path
  fopen : Path → Option OpenFile

/-- The text a reader of a C string finds behind a pointer: the bytes before
the first zero, or `none` when the buffer holds no zero, so that the read
leaves the allocation. -/
def cString (buf : CBuf) : Option (List Nat) :=
  if 0 ∈ buf then some (buf.takeWhile (fun b => b != 0)) else none

/-- The buffer of `std::make_unique<char[]>(bufSize)` (zero-initialised) after
`fread(buffer.get(), sizeof(char), bufSize, fp)`. -/
def readBuffer (bufSize : Nat) (fp : OpenFile) : CBuf :=
  fp.data.take bufSize ++ List.replicate (bufSize - (fp.data.take bufSize).length) 0

/-- Models `SetWebViewHTMLFromFile(handle, htmlFile)`. -/
def SetWebViewHTMLFromFile (fs : FileSystem) (s : State) (handle : WebViewHandle)
    (htmlFile : Path) : Int × State :=
  if !fs.pathExists htmlFile then
    (0, s)
  else
    let absPath := fs.absolute htmlFile
    match fs.fopen absPath with
    | none => (0, s)
    | some fp =>
      let bufSize := fp.size
      let buffer := readBuffer bufSize fp
      (1, SetWebViewHTML s handle buffer)

/-- Models `SetWebViewVituralHostName(handle, url, folder, option)`; `engineCode` is
what `webview_set_virtual_host_name` returns. `absPath.data()` is the path
text followed by its terminating zero. -/
def SetWebViewVituralHostName (fs : FileSystem) (s : State) (handle : WebViewHandle)
    (url : CBuf) (folder : Path) (option : Int) (engineCode : Int) : Int × State :=
  let webviewInstance := toInstance handle
  if !fs.pathExists folder then
    (0, s)
  else
    let absPath := fs.absolute folder
    (engineCode,
      s.call (EngineCall.webview_set_virtual_host_name webviewInstance url (absPath ++ [0]) option))

/-! ## Version query -/

/-- Models `webview_version_info_t` of the engine: the three numbers of
`webview_version_t` and the three text arrays. -/
structure EngineVersionInfo where
  major : Nat
  minor : Nat
  patch : Nat
  version_number : CBuf
  pre_release : CBuf
  build_metadata : CBuf
  deriving DecidableEq, Repr

/-- Models `struct _webViewVersionInfo`; the three arrays have 32, 48 and 48 bytes. -/
structure WebViewVersionInfo where
  major : Nat
  minor : Nat
  patch : Nat
  version_number : CBuf
  pre_release : CBuf
  build_metadata : CBuf
  deriving DecidableEq, Repr

/-- Models `strcpy(dst, src)`: the text of `src` and its terminating zero overwrite
the start of `dst`; `none` when `src` holds no zero or the copy does not fit
in `dst`. -/
def strcpy (dst src : CBuf) : Option CBuf :=
  match cString src with
  | none => none
  | some t =>
    if t.length + 1 ≤ dst.length then some (t ++ [0] ++ dst.drop (t.length + 1)) else none

/-- Models `GetWebViewVersionInfo(outInfo)`; `info` is what `webview_version` points
to. The record written, or `none` when one of the copies is undefined. -/
def GetWebViewVersionInfo (s : State) (info : EngineVersionInfo) (outInfo : WebViewVersionInfo) :
    Option WebViewVersionInfo × State :=
  let s1 := s.call EngineCall.webview_version
  match strcpy outInfo.version_number info.version_number with
  | none => (none, s1)
  | some vn =>
    match strcpy outInfo.pre_release info.pre_release with
    | none => (none, s1)
    | some pr =>
      match strcpy outInfo.build_metadata info.build_metadata with
      | none => (none, s1)
      | some bm => (some ⟨info.major, info.minor, info.patch, vn, pr, bm⟩, s1)

/-! ## Sequences of operations -/

/-- One step of a client of the library: a call of an exported function with
its arguments (and, where the engine or the file system answers, that answer),
or the engine running a queued trampoline. -/
inductive Op where
  | create (debug : Int) (wnd : Nat) (webviewInstance : Nat)
  | destroy (handle : WebViewHandle)
  | check (handle : WebViewHandle)
  | run (handle : WebViewHandle)
  | run1 (handle : WebViewHandle)
  | terminate (handle : WebViewHandle)
  | dispatch (handle : WebViewHandle) (fn : FnPtr) (arg : Nat)
  | trampoline (w : Nat) (arg : Nat)
  | getWindow (handle : WebViewHandle) (window : Nat)
  | setTitle (handle : WebViewHandle) (title : CBuf)
  | setSize (handle : WebViewHandle) (width height hints : Int)
  | navigate (handle : WebViewHandle) (url : CBuf)
  | setHTML (handle : WebViewHandle) (html : CBuf)
  | setHTMLFromFile (fs : FileSystem) (handle : WebViewHandle) (htmlFile : Path)
  | init (handle : WebViewHandle) (js : CBuf)
  | eval (handle : WebViewHandle) (js : CBuf)
  | bind (handle : WebViewHandle) (name : CBuf) (fn : FnPtr) (arg : Nat)
  | unbind (handle : WebViewHandle) (name : CBuf)
  | ret (handle : WebViewHandle) (seq : CBuf) (status : Int) (result : CBuf)
  | setVirtualHostName (fs : FileSystem) (handle : WebViewHandle) (url : CBuf) (folder : Path)
      (option : Int) (engineCode : Int)
  | versionInfo (info : EngineVersionInfo) (outInfo : WebViewVersionInfo)

/-- The effect of one step on the process state. -/
def step (s : State) : Op → Outcome
  | Op.create debug wnd webviewInstance =>
    Outcome.ok (CreateWebViewInstance s debug wnd webviewInstance).2
  | Op.destroy handle => Outcome.ok (DestroyWebView s handle)
  | Op.check _ => Outcome.ok s
  | Op.run handle => Outcome.ok (RunWebView s handle)
  | Op.run1 handle => Outcome.ok (RunWebView1 s handle)
  | Op.terminate handle => Outcome.ok (TerminateWebView s handle)
  | Op.dispatch handle fn arg => DispatchWebView s handle fn arg
  | Op.trampoline w arg => trampoline s w arg
  | Op.getWindow handle window => Outcome.ok (GetWebViewWindow s handle window).2
  | Op.setTitle handle title => Outcome.ok (SetWebViewTitle s handle title)
  | Op.setSize handle width height hints => Outcome.ok (SetWebViewSize s handle width height hints)
  | Op.navigate handle url => Outcome.ok (NavigateWebView s handle url)
  | Op.setHTML handle html => Outcome.ok (SetWebViewHTML s handle html)
  | Op.setHTMLFromFile fs handle htmlFile =>
    Outcome.ok (SetWebViewHTMLFromFile fs s handle htmlFile).2
  | Op.init handle js => Outcome.ok (InitWebView s handle js)
  | Op.eval handle js => Outcome.ok (EvalWebView s handle js)
  | Op.bind handle name fn arg => Outcome.ok (BindWebView s handle name fn arg)
  | Op.unbind handle name => Outcome.ok (UnBindWebView s handle name)
  | Op.ret handle seq status result => Outcome.ok (ReturnWebView s handle seq status result)
  | Op.setVirtualHostName fs handle url folder option engineCode =>
    Outcome.ok (SetWebViewVituralHostName fs s handle url folder option engineCode).2
  | Op.versionInfo info outInfo =>
    match GetWebViewVersionInfo s info outInfo with
    | (some _, s1) => Outcome.ok s1
    | (none, s1) => Outcome.undefined s1

/-- The steps in order; the run stops at the first undefined one. -/
def run (s : State) : List Op → Outcome
  | [] => Outcome.ok s
  | op :: ops =>
    match step s op with
    | Outcome.ok s1 => run s1 ops
    | Outcome.undefined s1 => Outcome.undefined s1

/-- The spec's reading of one step on the set of live handles: a successful
creation adds the handle it returns (the address the engine returned), a
destroy removes its argument, nothing else changes the set. -/
def specLiveStep (live : List WebViewHandle) : Op → List WebViewHandle
  | Op.create _ _ webviewInstance =>
    if webviewInstance = 0 then live else webviewInstance :: live
  | Op.destroy handle => live.filter (fun k => k != handle)
  | _ => live

/-- The handles returned by successful creations and not yet destroyed, after
the steps in order from no handle at all. -/
def specLive (ops : List Op) : List WebViewHandle :=
  ops.foldl specLiveStep []

/-! ## Concrete inputs -/

/-- The bytes of `<h1>Hi</h1>`. -/
def hiBytes : List Nat := [60, 104, 49, 62, 72, 105, 60, 47, 104, 49, 62]

/-- A file system with one file, `/i`, holding `<h1>Hi</h1>`; the working
directory is `/`, so the relative path `i` names it. -/
def fsHi : FileSystem where
  pathExists := fun p => p == [105] || p == [47, 105]
  absolute := fun p => if p.head? == some 47 then p else 47 :: p
  fopen := fun p => if p == [47, 105] then some ⟨11, hiBytes⟩ else none

/-- A file system with one folder, `/d`, that cannot be opened as a file, and
nothing else; the working directory is `/`. -/
def fsDir : FileSystem where
  pathExists := fun p => p == [100] || p == [47, 100]
  absolute := fun p => if p.head? == some 47 then p else 47 :: p
  fopen := fun _ => none

/-- An engine version descriptor for version 0.11.0: the text `0.11.0` in a
32-byte array, and empty pre-release and build-metadata texts in 48-byte
arrays. -/
def engineVersionSample : EngineVersionInfo :=
  ⟨0, 11, 0, [48, 46, 49, 49, 46, 48] ++ List.replicate 26 0, List.replicate 48 0,
    List.replicate 48 0⟩

/-- A caller's output record before the call: arbitrary numbers and arrays of
32, 48 and 48 bytes that hold no zero. -/
def outInfoSample : WebViewVersionInfo :=
  ⟨9, 9, 9, List.replicate 32 255, List.replicate 48 255, List.replicate 48 255⟩

/-! ## Facts about the table -/

theorem Registry.count_insert_self (m : Registry) (k : WebViewHandle) (v : Option ContextStore) :
    (m.insert k v).count k = 1 := by
  unfold Registry.insert Registry.count
  by_cases h : m.any (fun e => e.1 == k) = true
  · simp [h]
  · simp [h]

theorem Registry.count_erase_self (m : Registry) (k : WebViewHandle) :
    (m.erase k).count k = 0 := by
  unfold Registry.erase Registry.count
  simp

theorem Registry.any_iff_mem_keys (m : Registry) (k : WebViewHandle) :
    m.any (fun e => e.1 == k) = true ↔ k ∈ m.keys := by
  simp only [Registry.keys, List.any_eq_true, List.mem_map, beq_iff_eq]

theorem Registry.count_eq_one_iff (m : Registry) (k : WebViewHandle) :
    m.count k = 1 ↔ k ∈ m.keys := by
  rw [← Registry.any_iff_mem_keys]
  unfold Registry.count
  by_cases h : m.any (fun e => e.1 == k) = true <;> simp [h]

theorem Registry.count_eq_zero_iff (m : Registry) (k : WebViewHandle) :
    m.count k = 0 ↔ k ∉ m.keys := by
  rw [← Registry.any_iff_mem_keys]
  unfold Registry.count
  by_cases h : m.any (fun e => e.1 == k) = true <;> simp [h]

theorem Registry.mem_keys_insert (m : Registry) (k : WebViewHandle) (v : Option ContextStore)
    (j : WebViewHandle) : j ∈ (m.insert k v).keys ↔ j ∈ m.keys ∨ j = k := by
  unfold Registry.insert
  by_cases h : m.any (fun e => e.1 == k) = true
  · rw [if_pos h]
    constructor
    · intro hj; exact Or.inl hj
    · rintro (hj | hj)
      · exact hj
      · rw [hj]; exact (Registry.any_iff_mem_keys m k).1 h
  · rw [if_neg h]
    simp [Registry.keys]

theorem Registry.mem_keys_erase (m : Registry) (k j : WebViewHandle) :
    j ∈ (m.erase k).keys ↔ j ∈ m.keys ∧ j ≠ k := by
  simp only [Registry.erase, Registry.keys, List.mem_map, List.mem_filter]
  constructor
  · rintro ⟨e, ⟨he, hne⟩, rfl⟩
    refine ⟨⟨e, he, rfl⟩, ?_⟩
    simpa using hne
  · rintro ⟨⟨e, he, rfl⟩, hne⟩
    exact ⟨e, ⟨he, by simpa using hne⟩, rfl⟩

theorem Registry.keys_assign (m : Registry) (k : WebViewHandle) (v : Option ContextStore) :
    (m.assign k v).keys = m.keys := by
  unfold Registry.assign Registry.keys
  rw [List.map_map]
  apply List.map_congr_left
  intro e _
  by_cases h : e.1 = k <;> simp [h]

theorem Registry.find_eq_none_iff (m : Registry) (k : WebViewHandle) :
    m.find k = none ↔ k ∉ m.keys := by
  rw [← Registry.any_iff_mem_keys]
  unfold Registry.find
  induction m with
  | nil => simp
  | cons e t ih =>
    by_cases h : (e.1 == k) = true
    · simp [List.find?, h]
    · simp only [Bool.not_eq_true] at h
      simp only [List.find?, h, List.any_cons, Bool.false_or]
      exact ih

theorem Registry.index_of_mem (m : Registry) (k : WebViewHandle) (h : k ∈ m.keys) :
    m.index k = m := by
  unfold Registry.index Registry.insert
  rw [if_pos ((Registry.any_iff_mem_keys m k).2 h)]

theorem Registry.find_insert_of_not_mem (m : Registry) (k : WebViewHandle)
    (v : Option ContextStore) (h : k ∉ m.keys) : (m.insert k v).find k = some v := by
  unfold Registry.insert
  have hany : ¬ m.any (fun e => e.1 == k) = true := fun h1 =>
    h ((Registry.any_iff_mem_keys m k).1 h1)
  rw [if_neg hany]
  unfold Registry.find
  clear hany
  induction m with
  | nil => simp
  | cons e t ih =>
    have hk : (e.1 == k) = false := by
      have : e.1 ≠ k := fun he => h (by simp [Registry.keys, ← he])
      simpa using this
    have ht : k ∉ Registry.keys t := fun h1 => h (by simp [Registry.keys] at h1 ⊢; exact Or.inr h1)
    simp only [List.cons_append, List.find?, hk]
    exact ih ht

theorem Registry.find_assign_self (m : Registry) (k : WebViewHandle) (v : Option ContextStore)
    (h : k ∈ m.keys) : (m.assign k v).find k = some v := by
  unfold Registry.assign Registry.find
  induction m with
  | nil => simp [Registry.keys] at h
  | cons e t ih =>
    by_cases hk : (e.1 == k) = true
    · simp [List.find?, hk]
    · simp only [Bool.not_eq_true] at hk
      have ht : k ∈ Registry.keys t := by
        simp only [Registry.keys, List.map_cons, List.mem_cons] at h
        rcases h with h | h
        · rw [h] at hk; simp at hk
        · exact h
      simp only [List.map_cons, hk, Bool.false_eq_true, if_false, List.find?]
      exact ih ht

/-- When `operator[]` finds a record under the key, the key was present and
the table is the one before the lookup. -/
theorem Registry.index_eq_of_find_record (m : Registry) (k : WebViewHandle) (c : ContextStore)
    (h : (m.index k).find k = some (some c)) : m.index k = m ∧ k ∈ m.keys := by
  by_cases hk : k ∈ m.keys
  · exact ⟨Registry.index_of_mem m k hk, hk⟩
  · unfold Registry.index at h
    rw [Registry.find_insert_of_not_mem m k none hk] at h
    simp at h

/-! ## Facts about the operations -/

theorem find_mem_keys (m : Registry) (k : WebViewHandle) (v : Option ContextStore)
    (h : m.find k = some v) : k ∈ m.keys := by
  by_contra hk
  rw [(Registry.find_eq_none_iff m k).2 hk] at h
  cases h

/-- On a handle that holds a record, `DispatchWebView` is defined: it replaces
the callback of that record and schedules one trampoline. -/
theorem DispatchWebView_of_record (s : State) (handle : WebViewHandle) (fn : FnPtr) (arg : Nat)
    (c : ContextStore) (hreg : s.contextStoreMapping.find handle = some (some c)) :
    DispatchWebView s handle fn arg
      = Outcome.ok ⟨s.contextStoreMapping.assign handle (some ⟨fn⟩),
          s.calls ++ [EngineCall.webview_dispatch (toInstance handle) arg], s.invoked⟩ := by
  have hk : handle ∈ s.contextStoreMapping.keys := find_mem_keys _ _ _ hreg
  unfold DispatchWebView
  simp only [Registry.index_of_mem _ _ hk, hreg]

/-- On a handle whose record holds the callback `f`, the trampoline is
defined: it invokes `f` once with the handle and the argument. -/
theorem trampoline_of_record (s : State) (w arg f : Nat)
    (hreg : s.contextStoreMapping.find (toHandle w) = some (some ⟨some f⟩)) :
    trampoline s w arg
      = Outcome.ok ⟨s.contextStoreMapping, s.calls, s.invoked ++ [⟨f, toHandle w, arg⟩]⟩ := by
  have hk : toHandle w ∈ s.contextStoreMapping.keys := find_mem_keys _ _ _ hreg
  unfold trampoline
  simp only [Registry.index_of_mem _ _ hk, hreg]

theorem DispatchWebView_ok_keys (s s1 : State) (handle : WebViewHandle) (fn : FnPtr) (arg : Nat)
    (h : DispatchWebView s handle fn arg = Outcome.ok s1) :
    s1.contextStoreMapping.keys = s.contextStoreMapping.keys := by
  simp only [DispatchWebView] at h
  split at h
  · rename_i c hc
    have hidx := (Registry.index_eq_of_find_record _ _ _ hc).1
    injection h with h
    rw [← h]
    simp only [Registry.keys_assign, hidx]
  · cases h

theorem trampoline_ok_registry (s s1 : State) (w arg : Nat)
    (h : trampoline s w arg = Outcome.ok s1) : s1.contextStoreMapping = s.contextStoreMapping := by
  simp only [trampoline] at h
  split at h
  · rename_i c hc
    have hidx := (Registry.index_eq_of_find_record _ _ _ hc).1
    split at h
    · injection h with h
      rw [← h]
      exact hidx
    · cases h
  · cases h

theorem SetWebViewHTMLFromFile_registry (fs : FileSystem) (s : State) (handle : WebViewHandle)
    (htmlFile : Path) :
    (SetWebViewHTMLFromFile fs s handle htmlFile).2.contextStoreMapping
      = s.contextStoreMapping := by
  simp only [SetWebViewHTMLFromFile]
  split
  · rfl
  · split <;> rfl

theorem SetWebViewVituralHostName_registry (fs : FileSystem) (s : State)
    (handle : WebViewHandle) (url : CBuf) (folder : Path) (option engineCode : Int) :
    (SetWebViewVituralHostName fs s handle url folder option engineCode).2.contextStoreMapping
      = s.contextStoreMapping := by
  unfold SetWebViewVituralHostName
  split <;> rfl

theorem GetWebViewVersionInfo_registry (s : State) (info : EngineVersionInfo)
    (outInfo : WebViewVersionInfo) :
    (GetWebViewVersionInfo s info outInfo).2.contextStoreMapping = s.contextStoreMapping := by
  unfold GetWebViewVersionInfo
  split
  · rfl
  · split
    · rfl
    · split <;> rfl

/-- A defined step other than a creation or a destroy leaves the keys of the
table as they were. -/
theorem step_ok_keys (s s1 : State) (op : Op) (h : step s op = Outcome.ok s1)
    (hc : ∀ debug wnd webviewInstance, op ≠ Op.create debug wnd webviewInstance)
    (hd : ∀ handle, op ≠ Op.destroy handle) :
    s1.contextStoreMapping.keys = s.contextStoreMapping.keys := by
  cases op with
  | create debug wnd webviewInstance => exact absurd rfl (hc debug wnd webviewInstance)
  | destroy handle => exact absurd rfl (hd handle)
  | dispatch handle fn arg => exact DispatchWebView_ok_keys s s1 handle fn arg h
  | trampoline w arg => rw [trampoline_ok_registry s s1 w arg h]
  | setHTMLFromFile fs handle htmlFile =>
    simp only [step, Outcome.ok.injEq] at h
    rw [← h, SetWebViewHTMLFromFile_registry]
  | setVirtualHostName fs handle url folder option engineCode =>
    simp only [step, Outcome.ok.injEq] at h
    rw [← h, SetWebViewVituralHostName_registry]
  | versionInfo info outInfo =>
    have hr := GetWebViewVersionInfo_registry s info outInfo
    simp only [step] at h
    split at h
    · rename_i x s2 heq
      injection h with h
      rw [heq] at hr
      rw [← h]
      exact congrArg Registry.keys hr
    · cases h
  | _ =>
    simp only [step, Outcome.ok.injEq] at h
    rw [← h]
    try rfl

/-- One defined step keeps the table's keys equal to the spec's live set. -/
theorem step_tracks (s s1 : State) (op : Op) (live : List WebViewHandle)
    (h : step s op = Outcome.ok s1)
    (hinv : ∀ k, k ∈ s.contextStoreMapping.keys ↔ k ∈ live) :
    ∀ k, k ∈ s1.contextStoreMapping.keys ↔ k ∈ specLiveStep live op := by
  intro k
  by_cases hc : ∃ debug wnd webviewInstance, op = Op.create debug wnd webviewInstance
  · obtain ⟨debug, wnd, webviewInstance, rfl⟩ := hc
    simp only [step, Outcome.ok.injEq] at h
    rw [← h]
    unfold CreateWebViewInstance specLiveStep
    by_cases hw : webviewInstance = 0
    · simp only [hw, if_true]
      exact hinv k
    · simp only [hw, if_false, toHandle, Registry.mem_keys_insert, List.mem_cons, hinv k]
      exact or_comm
  · by_cases hd : ∃ handle, op = Op.destroy handle
    · obtain ⟨handle, rfl⟩ := hd
      simp only [step, Outcome.ok.injEq] at h
      rw [← h]
      simp only [DestroyWebView, specLiveStep, Registry.mem_keys_erase, List.mem_filter, hinv k,
        bne_iff_ne]
    · have hkeys := step_ok_keys s s1 op h
        (fun a b c e => hc ⟨a, b, c, e⟩) (fun a e => hd ⟨a, e⟩)
      rw [hkeys, hinv k]
      cases op with
      | create a b c => exact absurd ⟨a, b, c, rfl⟩ hc
      | destroy a => exact absurd ⟨a, rfl⟩ hd
      | _ => rfl

/-- A run without an undefined step keeps the table's keys equal to the
spec's live set. -/
theorem run_tracks (ops : List Op) : ∀ (s s1 : State) (live : List WebViewHandle),
    run s ops = Outcome.ok s1 → (∀ k, k ∈ s.contextStoreMapping.keys ↔ k ∈ live) →
    ∀ k, k ∈ s1.contextStoreMapping.keys ↔ k ∈ ops.foldl specLiveStep live := by
  induction ops with
  | nil =>
    intro s s1 live h hinv
    simp only [run, Outcome.ok.injEq] at h
    rw [← h]
    exact hinv
  | cons op ops ih =>
    intro s s1 live h hinv
    simp only [run] at h
    split at h
    · rename_i s2 hs2
      exact ih s2 s1 (specLiveStep live op) h (step_tracks s s2 op live hs2 hinv)
    · cases h

theorem CheckWebViewExists_eq_one_iff (s : State) (k : WebViewHandle) :
    CheckWebViewExists s k = 1 ↔ k ∈ s.contextStoreMapping.keys := by
  unfold CheckWebViewExists
  rw [← Registry.count_eq_one_iff]
  exact_mod_cast Iff.rfl

theorem CheckWebViewExists_eq_zero_iff (s : State) (k : WebViewHandle) :
    CheckWebViewExists s k = 0 ↔ k ∉ s.contextStoreMapping.keys := by
  unfold CheckWebViewExists
  rw [← Registry.count_eq_zero_iff]
  exact_mod_cast Iff.rfl

/-- Only a creation that returns `k` can add the key `k`. -/
theorem step_adds_only_by_create (s s1 : State) (op : Op) (k : WebViewHandle)
    (h : step s op = Outcome.ok s1) (h0 : k ∉ s.contextStoreMapping.keys)
    (h1 : k ∈ s1.contextStoreMapping.keys) :
    ∃ debug wnd, op = Op.create debug wnd k := by
  by_cases hc : ∃ debug wnd webviewInstance, op = Op.create debug wnd webviewInstance
  · obtain ⟨debug, wnd, webviewInstance, rfl⟩ := hc
    simp only [step, Outcome.ok.injEq] at h
    rw [← h] at h1
    unfold CreateWebViewInstance at h1
    by_cases hw : webviewInstance = 0
    · simp only [hw, if_true] at h1
      exact absurd h1 h0
    · simp only [hw, if_false, toHandle, Registry.mem_keys_insert] at h1
      rcases h1 with h1 | h1
      · exact absurd h1 h0
      · exact ⟨debug, wnd, by rw [h1]⟩
  · by_cases hd : ∃ handle, op = Op.destroy handle
    · obtain ⟨handle, rfl⟩ := hd
      simp only [step, Outcome.ok.injEq] at h
      rw [← h] at h1
      simp only [DestroyWebView, Registry.mem_keys_erase] at h1
      exact absurd h1.1 h0
    · have hkeys := step_ok_keys s s1 op h
        (fun a b c e => hc ⟨a, b, c, e⟩) (fun a e => hd ⟨a, e⟩)
      rw [hkeys] at h1
      exact absurd h1 h0

/-- Only a destroy of `k` can remove the key `k`. -/
theorem step_removes_only_by_destroy (s s1 : State) (op : Op) (k : WebViewHandle)
    (h : step s op = Outcome.ok s1) (h0 : k ∈ s.contextStoreMapping.keys)
    (h1 : k ∉ s1.contextStoreMapping.keys) :
    op = Op.destroy k := by
  by_cases hc : ∃ debug wnd webviewInstance, op = Op.create debug wnd webviewInstance
  · obtain ⟨debug, wnd, webviewInstance, rfl⟩ := hc
    simp only [step, Outcome.ok.injEq] at h
    rw [← h] at h1
    unfold CreateWebViewInstance at h1
    by_cases hw : webviewInstance = 0
    · simp only [hw, if_true] at h1
      exact absurd h0 h1
    · simp only [hw, if_false, toHandle, Registry.mem_keys_insert] at h1
      exact absurd (Or.inl h0) h1
  · by_cases hd : ∃ handle, op = Op.destroy handle
    · obtain ⟨handle, rfl⟩ := hd
      simp only [step, Outcome.ok.injEq] at h
      rw [← h] at h1
      simp only [DestroyWebView, Registry.mem_keys_erase, not_and, not_not] at h1
      rw [h1 h0]
    · have hkeys := step_ok_keys s s1 op h
        (fun a b c e => hc ⟨a, b, c, e⟩) (fun a e => hd ⟨a, e⟩)
      rw [hkeys] at h1
      exact absurd h0 h1

theorem Registry.find_mem (m : Registry) (k : WebViewHandle) (v : Option ContextStore)
    (h : m.find k = some v) : (k, v) ∈ m := by
  unfold Registry.find at h
  cases hf : List.find? (fun e => e.1 == k) m with
  | none => rw [hf] at h; cases h
  | some e =>
    rw [hf] at h
    simp only [Option.map, Option.some.injEq] at h
    have hmem := List.mem_of_find?_eq_some hf
    have hkey := List.find?_some hf
    simp only [beq_iff_eq] at hkey
    rw [← hkey, ← h]
    exact hmem

/-- A defined step keeps every record of the table non-null. -/
theorem step_records (s s1 : State) (op : Op) (h : step s op = Outcome.ok s1)
    (hinv : ∀ e ∈ s.contextStoreMapping, e.2 ≠ none) :
    ∀ e ∈ s1.contextStoreMapping, e.2 ≠ none := by
  cases op with
  | create debug wnd webviewInstance =>
    simp only [step, Outcome.ok.injEq] at h
    rw [← h]
    unfold CreateWebViewInstance Registry.insert
    intro e he
    by_cases hw : webviewInstance = 0
    · simp only [hw, if_true] at he
      exact hinv e he
    · simp only [hw, if_false] at he
      split at he
      · exact hinv e he
      · rcases List.mem_append.1 he with he | he
        · exact hinv e he
        · simp only [List.mem_singleton] at he
          rw [he]
          simp
  | destroy handle =>
    simp only [step, Outcome.ok.injEq] at h
    rw [← h]
    intro e he
    simp only [DestroyWebView, Registry.erase, List.mem_filter] at he
    exact hinv e he.1
  | dispatch handle fn arg =>
    simp only [step, DispatchWebView] at h
    split at h
    · rename_i c hc
      have hidx := (Registry.index_eq_of_find_record _ _ _ hc).1
      injection h with h
      rw [← h, hidx]
      intro e he
      simp only [Registry.assign, List.mem_map] at he
      obtain ⟨e0, he0, rfl⟩ := he
      by_cases hk : e0.1 = handle
      · simp [hk]
      · simp only [beq_iff_eq, hk, if_false]
        exact hinv e0 he0
    · cases h
  | trampoline w arg =>
    rw [trampoline_ok_registry s s1 w arg h]
    exact hinv
  | setHTMLFromFile fs handle htmlFile =>
    simp only [step, Outcome.ok.injEq] at h
    rw [← h, SetWebViewHTMLFromFile_registry]
    exact hinv
  | setVirtualHostName fs handle url folder option engineCode =>
    simp only [step, Outcome.ok.injEq] at h
    rw [← h, SetWebViewVituralHostName_registry]
    exact hinv
  | versionInfo info outInfo =>
    have hr := GetWebViewVersionInfo_registry s info outInfo
    simp only [step] at h
    split at h
    · rename_i x s2 heq
      injection h with h
      rw [heq] at hr
      rw [← h]
      simp only at hr
      rw [hr]
      exact hinv
    · cases h
  | _ =>
    simp only [step, Outcome.ok.injEq] at h
    rw [← h]
    exact hinv

theorem run_records (ops : List Op) : ∀ (s s1 : State),
    run s ops = Outcome.ok s1 → (∀ e ∈ s.contextStoreMapping, e.2 ≠ none) →
    ∀ e ∈ s1.contextStoreMapping, e.2 ≠ none := by
  induction ops with
  | nil =>
    intro s s1 h hinv
    simp only [run, Outcome.ok.injEq] at h
    rw [← h]
    exact hinv
  | cons op ops ih =>
    intro s s1 h hinv
    simp only [run] at h
    split at h
    · rename_i s2 hs2
      exact ih s2 s1 h (step_records s s2 op hs2 hinv)
    · cases h

/-- In every state reached from the empty table without an undefined step, a
handle for which `CheckWebViewExists` answers 1 holds a context record. -/
theorem reachable_registered_has_record (ops : List Op) (s : State)
    (hrun : run State.init ops = Outcome.ok s) (k : WebViewHandle)
    (hk : CheckWebViewExists s k = 1) : ∃ c, s.contextStoreMapping.find k = some (some c) := by
  have hnn := run_records ops State.init s hrun (fun e he => by simp [State.init] at he)
  have hmem := (CheckWebViewExists_eq_one_iff s k).1 hk
  cases hf : s.contextStoreMapping.find k with
  | none => exact absurd hmem ((Registry.find_eq_none_iff _ _).1 hf)
  | some v =>
    cases v with
    | none => exact absurd rfl (hnn _ (Registry.find_mem _ _ _ hf))
    | some c => exact ⟨c, rfl⟩

/-! ## More facts about the table -/

theorem Registry.erase_of_not_mem (m : Registry) (k : WebViewHandle) (h : k ∉ m.keys) :
    m.erase k = m := by
  unfold Registry.erase
  rw [List.filter_eq_self]
  intro e he
  have hne : e.1 ≠ k := fun hk => h (by
    simp only [Registry.keys, List.mem_map]
    exact ⟨e, he, hk⟩)
  simpa using hne

theorem Registry.mem_erase_iff (m : Registry) (k : WebViewHandle)
    (e : WebViewHandle × Option ContextStore) : e ∈ m.erase k ↔ e ∈ m ∧ e.1 ≠ k := by
  simp [Registry.erase]

theorem Registry.find_insert_other (m : Registry) (k j : WebViewHandle)
    (v : Option ContextStore) (hne : k ≠ j) : (m.insert k v).find j = m.find j := by
  unfold Registry.insert
  split
  · rfl
  · rename_i hany
    clear hany
    unfold Registry.find
    congr 1
    induction m with
    | nil =>
      have hk : (k == j) = false := by simpa using hne
      simp [List.find?, hk]
    | cons e t ih =>
      by_cases he : (e.1 == j) = true
      · simp [List.find?, he]
      · simp only [Bool.not_eq_true] at he
        simp only [List.cons_append, List.find?, he]
        exact ih

theorem Registry.find_erase_other (m : Registry) (k j : WebViewHandle) (hne : k ≠ j) :
    (m.erase k).find j = m.find j := by
  unfold Registry.erase Registry.find
  congr 1
  induction m with
  | nil => rfl
  | cons e t ih =>
    by_cases hk : e.1 = k
    · have hj : (e.1 == j) = false := by
        rw [hk]; simpa using hne
      have hf : (!(e.1 == k)) = false := by simp [hk]
      simp only [List.filter_cons, hf, List.find?, hj]
      exact ih
    · have hf : (!(e.1 == k)) = true := by simp [hk]
      simp only [List.filter_cons, hf, if_true]
      by_cases hj : (e.1 == j) = true
      · simp [List.find?, hj]
      · simp only [Bool.not_eq_true] at hj
        simp only [List.find?, hj]
        exact ih

theorem Registry.find_assign_other (m : Registry) (k j : WebViewHandle)
    (v : Option ContextStore) (hne : k ≠ j) : (m.assign k v).find j = m.find j := by
  unfold Registry.assign Registry.find
  congr 1
  induction m with
  | nil => rfl
  | cons e t ih =>
    by_cases hk : e.1 = k
    · have hj : (e.1 == j) = false := by
        rw [hk]; simpa using hne
      simp only [List.map_cons, hk, beq_self_eq_true, if_true, List.find?]
      have hj2 : (k == j) = false := by simpa using hne
      rw [hk] at hj
      simp only [hj2]
      exact ih
    · have hkb : (e.1 == k) = false := by simpa using hk
      simp only [List.map_cons, hkb, Bool.false_eq_true, if_false]
      by_cases hj : (e.1 == j) = true
      · simp [List.find?, hj]
      · simp only [Bool.not_eq_true] at hj
        simp only [List.find?, hj]
        exact ih

theorem Registry.count_eq_of_find_eq (m m1 : Registry) (j : WebViewHandle)
    (h : m1.find j = m.find j) : m1.count j = m.count j := by
  by_cases hj : j ∈ m.keys
  · have h1 : j ∈ m1.keys := by
      by_contra hc
      rw [(Registry.find_eq_none_iff m1 j).2 hc] at h
      exact ((Registry.find_eq_none_iff m j).1 h.symm) hj
    rw [(Registry.count_eq_one_iff m j).2 hj, (Registry.count_eq_one_iff m1 j).2 h1]
  · have h1 : j ∉ m1.keys := by
      rw [(Registry.find_eq_none_iff m j).2 hj] at h
      exact (Registry.find_eq_none_iff m1 j).1 h
    rw [(Registry.count_eq_zero_iff m j).2 hj, (Registry.count_eq_zero_iff m1 j).2 h1]

/-! ## Facts about C strings -/

theorem not_mem_takeWhile_ne_zero (buf : CBuf) :
    0 ∉ buf.takeWhile (fun b => b != 0) := by
  induction buf with
  | nil => simp
  | cons x xs ih =>
    by_cases hx : x = 0
    · simp [List.takeWhile, hx]
    · have hne : (x != 0) = true := by simp [hx]
      rw [List.takeWhile_cons, hne]
      simp only [if_true, List.mem_cons, not_or]
      exact ⟨fun h => hx h.symm, ih⟩

/-- The text read from a buffer holds no zero. -/
theorem cString_no_zero (buf : CBuf) (t : List Nat) (h : cString buf = some t) : 0 ∉ t := by
  unfold cString at h
  split at h
  · injection h with h
    rw [← h]
    exact not_mem_takeWhile_ne_zero buf
  · cases h

theorem takeWhile_append_zero_cons (t rest : List Nat) (ht : 0 ∉ t) :
    List.takeWhile (fun x => x != 0) (t ++ 0 :: rest) = t := by
  induction t with
  | nil => simp [List.takeWhile]
  | cons x xs ih =>
    have hx : x ≠ 0 := fun h => ht (by simp [h])
    have hxs : 0 ∉ xs := fun h => ht (by simp [h])
    have hne : (x != 0) = true := by simp [hx]
    rw [List.cons_append, List.takeWhile_cons, hne, ih hxs]
    rfl

/-- A buffer that starts with the zero-free text `t` followed by a zero reads
as the C string `t`. -/
theorem cString_terminated (t rest : List Nat) (ht : 0 ∉ t) :
    cString (t ++ [0] ++ rest) = some t := by
  unfold cString
  have hmem : 0 ∈ t ++ [0] ++ rest := by simp
  rw [if_pos hmem, List.append_assoc, List.singleton_append, takeWhile_append_zero_cons t rest ht]

/-- When the source holds the text `t` and `t` with its terminating zero fits
in the destination, `strcpy` is defined and writes exactly those bytes at the
start of the destination. -/
theorem strcpy_of_terminated (dst src : CBuf) (t : List Nat) (h : cString src = some t)
    (hfit : t.length < dst.length) :
    strcpy dst src = some (t ++ [0] ++ dst.drop (t.length + 1)) := by
  unfold strcpy
  rw [h]
  simp only
  rw [if_pos (by omega)]

theorem strcpy_result_length (dst : CBuf) (t : List Nat) (hfit : t.length < dst.length) :
    (t ++ [0] ++ dst.drop (t.length + 1)).length = dst.length := by
  simp only [List.length_append, List.length_singleton, List.length_drop]
  omega

/-! ## Claims -/

/-- C1: after a creation in which the engine returned a non-null instance, the
returned handle is that instance's address, `CheckWebViewExists` on it is 1,
and `CheckWebViewExists` is 0 right after `DestroyWebView` on it (whether it is
destroyed at once or in any later state). -/
theorem C1_exists_after_create_absent_after_destroy
    (s : State) (debug : Int) (wnd webviewInstance : Nat) (hw : webviewInstance ≠ 0) :
    (CreateWebViewInstance s debug wnd webviewInstance).1 = webviewInstance ∧
    CheckWebViewExists (CreateWebViewInstance s debug wnd webviewInstance).2
      (CreateWebViewInstance s debug wnd webviewInstance).1 = 1 ∧
    CheckWebViewExists
      (DestroyWebView (CreateWebViewInstance s debug wnd webviewInstance).2
        (CreateWebViewInstance s debug wnd webviewInstance).1)
      (CreateWebViewInstance s debug wnd webviewInstance).1 = 0 ∧
    ∀ s2 : State, CheckWebViewExists
      (DestroyWebView s2 (CreateWebViewInstance s debug wnd webviewInstance).1)
      (CreateWebViewInstance s debug wnd webviewInstance).1 = 0 := by
  simp only [CreateWebViewInstance, hw, if_false, toHandle, CheckWebViewExists, DestroyWebView]
  refine ⟨trivial, ?_, ?_, ?_⟩
  · rw [Registry.count_insert_self]; rfl
  · rw [Registry.count_erase_self]; rfl
  · intro s2; rw [Registry.count_erase_self]; rfl

/-- Witness of C1: the engine hands back address 4096 on a table that already
holds another instance. -/
theorem C1_exists_after_create_absent_after_destroy_witness :
    (CreateWebViewInstance ⟨[(8, some ⟨none⟩)], [], []⟩ 0 0 4096).1 = 4096 ∧
    CheckWebViewExists (CreateWebViewInstance ⟨[(8, some ⟨none⟩)], [], []⟩ 0 0 4096).2
      (CreateWebViewInstance ⟨[(8, some ⟨none⟩)], [], []⟩ 0 0 4096).1 = 1 ∧
    CheckWebViewExists
      (DestroyWebView (CreateWebViewInstance ⟨[(8, some ⟨none⟩)], [], []⟩ 0 0 4096).2
        (CreateWebViewInstance ⟨[(8, some ⟨none⟩)], [], []⟩ 0 0 4096).1)
      (CreateWebViewInstance ⟨[(8, some ⟨none⟩)], [], []⟩ 0 0 4096).1 = 0 ∧
    ∀ s2 : State, CheckWebViewExists
      (DestroyWebView s2 (CreateWebViewInstance ⟨[(8, some ⟨none⟩)], [], []⟩ 0 0 4096).1)
      (CreateWebViewInstance ⟨[(8, some ⟨none⟩)], [], []⟩ 0 0 4096).1 = 0 :=
  C1_exists_after_create_absent_after_destroy ⟨[(8, some ⟨none⟩)], [], []⟩ 0 0 4096 (by decide)

/-- C2: when the engine returns no instance, `CreateWebViewInstance` returns
`HANDLE_ERROR` (0), the table is exactly the one before the call, no user
callback is invoked, the only engine call is the failed `webview_create`, and
`CheckWebViewExists(HANDLE_ERROR)` keeps its value. -/
theorem C2_create_failure_returns_sentinel (s : State) (debug : Int) (wnd : Nat) :
    (CreateWebViewInstance s debug wnd 0).1 = HANDLE_ERROR ∧
    HANDLE_ERROR = 0 ∧
    (CreateWebViewInstance s debug wnd 0).2.contextStoreMapping = s.contextStoreMapping ∧
    (CreateWebViewInstance s debug wnd 0).2.invoked = s.invoked ∧
    (CreateWebViewInstance s debug wnd 0).2.calls
      = s.calls ++ [EngineCall.webview_create debug wnd] ∧
    CheckWebViewExists (CreateWebViewInstance s debug wnd 0).2 HANDLE_ERROR
      = CheckWebViewExists s HANDLE_ERROR := by
  simp [CreateWebViewInstance, CheckWebViewExists, HANDLE_ERROR]

/-- C3 (as stated, refuted): `DispatchWebView` on a handle that was never
created adds that handle to the table (with a null record) before it writes
through the null pointer, so the table holds a handle no creation returned;
and a trampoline that the engine runs after `DestroyWebView` puts the
destroyed handle back. -/
theorem C3_dispatch_on_absent_handle_adds_entry :
    CheckWebViewExists State.init 5 = 0 ∧
    DispatchWebView State.init 5 (some 1) 0 = Outcome.undefined ⟨[(5, none)], [], []⟩ ∧
    CheckWebViewExists (run State.init [Op.dispatch 5 (some 1) 0]).state 5 = 1 ∧
    specLive [Op.dispatch 5 (some 1) 0] = [] ∧
    (run State.init
      [Op.create 0 0 7, Op.dispatch 7 (some 1) 0, Op.destroy 7, Op.trampoline 7 0]).state.contextStoreMapping
      = [(7, none)] ∧
    specLive [Op.create 0 0 7, Op.dispatch 7 (some 1) 0, Op.destroy 7, Op.trampoline 7 0]
      = [] := by
  decide

/-- C3 (amended): from the empty table, after any sequence of operations and
trampoline runs none of which is undefined, the handles the table holds are
exactly those returned by successful creations and not yet destroyed; and in
the state reached, an operation that completes adds a handle only if it is a
creation returning that handle and removes one only if it is the destroy of
that handle. -/
theorem C3_registry_tracks_live_handles (ops : List Op) (s : State)
    (hrun : run State.init ops = Outcome.ok s) :
    (∀ k, CheckWebViewExists s k = 1 ↔ k ∈ specLive ops) ∧
    (∀ k, CheckWebViewExists s k = 0 ↔ k ∉ specLive ops) ∧
    (∀ (op : Op) (s1 : State), step s op = Outcome.ok s1 →
      (∀ k, CheckWebViewExists s k = 0 → CheckWebViewExists s1 k = 1 →
        ∃ debug wnd, op = Op.create debug wnd k) ∧
      (∀ k, CheckWebViewExists s k = 1 → CheckWebViewExists s1 k = 0 →
        op = Op.destroy k)) := by
  have htr := run_tracks ops State.init s [] hrun (fun k => by simp [State.init, Registry.keys])
  refine ⟨?_, ?_, ?_⟩
  · intro k
    rw [CheckWebViewExists_eq_one_iff]
    exact htr k
  · intro k
    rw [CheckWebViewExists_eq_zero_iff]
    exact not_congr (htr k)
  · intro op s1 hstep
    refine ⟨?_, ?_⟩
    · intro k h0 h1
      exact step_adds_only_by_create s s1 op k hstep
        ((CheckWebViewExists_eq_zero_iff s k).1 h0) ((CheckWebViewExists_eq_one_iff s1 k).1 h1)
    · intro k h1 h0
      exact step_removes_only_by_destroy s s1 op k hstep
        ((CheckWebViewExists_eq_one_iff s k).1 h1) ((CheckWebViewExists_eq_zero_iff s1 k).1 h0)

/-- Witness of C3 (amended): two creations, a dispatch and its trampoline, a
file-backed call, and the destroy of the first instance. -/
theorem C3_registry_tracks_live_handles_witness :
    run State.init [Op.create 0 0 7, Op.dispatch 7 (some 1) 5, Op.trampoline 7 5,
        Op.create 1 0 9, Op.setHTMLFromFile fsHi 9 [105], Op.destroy 7]
      = Outcome.ok ⟨[(9, some ⟨none⟩)],
          [EngineCall.webview_create 0 0, EngineCall.webview_dispatch 7 5,
           EngineCall.webview_create 1 0, EngineCall.webview_set_html 9 hiBytes,
           EngineCall.webview_destroy 7],
          [⟨1, 7, 5⟩]⟩ ∧
    (∀ k, CheckWebViewExists ⟨[(9, some ⟨none⟩)],
          [EngineCall.webview_create 0 0, EngineCall.webview_dispatch 7 5,
           EngineCall.webview_create 1 0, EngineCall.webview_set_html 9 hiBytes,
           EngineCall.webview_destroy 7],
          [⟨1, 7, 5⟩]⟩ k = 1 ↔
      k ∈ specLive [Op.create 0 0 7, Op.dispatch 7 (some 1) 5, Op.trampoline 7 5,
        Op.create 1 0 9, Op.setHTMLFromFile fsHi 9 [105], Op.destroy 7]) :=
  ⟨by decide,
   (C3_registry_tracks_live_handles
      [Op.create 0 0 7, Op.dispatch 7 (some 1) 5, Op.trampoline 7 5,
        Op.create 1 0 9, Op.setHTMLFromFile fsHi 9 [105], Op.destroy 7]
      ⟨[(9, some ⟨none⟩)],
          [EngineCall.webview_create 0 0, EngineCall.webview_dispatch 7 5,
           EngineCall.webview_create 1 0, EngineCall.webview_set_html 9 hiBytes,
           EngineCall.webview_destroy 7],
          [⟨1, 7, 5⟩]⟩ (by decide)).1⟩

/-- Reading up to the first zero of `b ++ [0]` gives `b` back when `b` holds
no zero. -/
theorem takeWhile_append_zero (b : List Nat) (hb : 0 ∉ b) :
    List.takeWhile (fun x => x != 0) (b ++ [0]) = b := by
  induction b with
  | nil => simp
  | cons x xs ih =>
    have hx : x ≠ 0 := fun h => hb (by simp [h])
    have hxs : 0 ∉ xs := fun h => hb (by simp [h])
    have hne : (x != 0) = true := by simp [hx]
    rw [List.cons_append, List.takeWhile_cons, hne, ih hxs]
    rfl

/-- Every file whose bytes `b` hold no zero is handed to `webview_set_html`
as the bare bytes `b`: a buffer without a terminating zero, not the buffer
`b ++ [0]` of the C string that `SetWebViewHTML(handle, b)` would pass. -/
theorem SetWebViewHTMLFromFile_unterminated (fs : FileSystem) (s : State)
    (handle : WebViewHandle) (htmlFile : Path) (b : List Nat)
    (hex : fs.pathExists htmlFile = true)
    (hopen : fs.fopen (fs.absolute htmlFile) = some ⟨b.length, b⟩)
    (hb : 0 ∉ b) :
    SetWebViewHTMLFromFile fs s handle htmlFile
      = (1, s.call (EngineCall.webview_set_html handle b)) ∧
    cString b = none ∧ cString (b ++ [0]) = some b := by
  refine ⟨?_, ?_, ?_⟩
  · simp [SetWebViewHTMLFromFile, hex, hopen, readBuffer, SetWebViewHTML, toInstance]
  · simp [cString, hb]
  · simp [cString, takeWhile_append_zero b hb]

/-- C4 (the code at the failing input): for the file holding `<h1>Hi</h1>`
the function returns 1 and calls `webview_set_html` once, but with the 11 file
bytes and no terminating zero, so the engine finds no C string inside the
buffer; `SetWebViewHTML` with the string `<h1>Hi</h1>` passes the 12 bytes
that end in zero, whose text is the file content. -/
theorem C4_html_from_file_buffer_unterminated :
    SetWebViewHTMLFromFile fsHi State.init 7 [105]
      = (1, ⟨[], [EngineCall.webview_set_html 7 hiBytes], []⟩) ∧
    cString hiBytes = none ∧
    SetWebViewHTML State.init 7 (hiBytes ++ [0])
      = ⟨[], [EngineCall.webview_set_html 7 (hiBytes ++ [0])], []⟩ ∧
    cString (hiBytes ++ [0]) = some hiBytes ∧
    (SetWebViewHTMLFromFile fsHi State.init 7 [105]).2
      ≠ SetWebViewHTML State.init 7 (hiBytes ++ [0]) := by
  decide

/-- C5: when the path does not exist, or exists but cannot be opened,
`SetWebViewHTMLFromFile` returns 0 and leaves the whole state (table, engine
calls, callbacks invoked) as it was; and whenever it returns 1 it has made
exactly one engine call, a `webview_set_html` on the handle's instance, with
the table and the callbacks invoked unchanged. -/
theorem C5_html_from_file_failure (fs : FileSystem) (s : State) (handle : WebViewHandle)
    (htmlFile : Path) :
    ((fs.pathExists htmlFile = false ∨ fs.fopen (fs.absolute htmlFile) = none) →
      SetWebViewHTMLFromFile fs s handle htmlFile = (0, s)) ∧
    ((SetWebViewHTMLFromFile fs s handle htmlFile).1 = 1 →
      ∃ html, (SetWebViewHTMLFromFile fs s handle htmlFile).2
        = ⟨s.contextStoreMapping, s.calls ++ [EngineCall.webview_set_html (toInstance handle) html],
            s.invoked⟩) ∧
    ((SetWebViewHTMLFromFile fs s handle htmlFile).1 = 0 ∨
      (SetWebViewHTMLFromFile fs s handle htmlFile).1 = 1) := by
  cases hex : fs.pathExists htmlFile with
  | false => simp [SetWebViewHTMLFromFile, hex]
  | true =>
    cases hopen : fs.fopen (fs.absolute htmlFile) with
    | none => simp [SetWebViewHTMLFromFile, hex, hopen]
    | some fp => simp [SetWebViewHTMLFromFile, hex, hopen, SetWebViewHTML, State.call]

/-- Witness of C5: a missing path and an existing folder that cannot be opened
both give 0 and the untouched state; the readable file gives 1 after one
`webview_set_html`. -/
theorem C5_html_from_file_failure_witness :
    SetWebViewHTMLFromFile fsHi State.init 7 [120] = (0, State.init) ∧
    SetWebViewHTMLFromFile fsDir State.init 7 [100] = (0, State.init) ∧
    ∃ html, (SetWebViewHTMLFromFile fsHi State.init 7 [105]).2
      = ⟨[], [] ++ [EngineCall.webview_set_html (toInstance 7) html], []⟩ :=
  ⟨(C5_html_from_file_failure fsHi State.init 7 [120]).1 (Or.inl (by decide)),
   (C5_html_from_file_failure fsDir State.init 7 [100]).1 (Or.inr (by decide)),
   (C5_html_from_file_failure fsHi State.init 7 [105]).2.1 (by decide)⟩

/-- C6 (the code at the failing input): with a folder that does not exist, and
whatever the engine would have answered, `SetWebViewVituralHostName` returns 0,
the value the header documents for success, and makes no engine call. -/
theorem C6_missing_folder_returns_success_code :
    SetWebViewVituralHostName fsDir State.init 7 [104] [120] 0 (-1) = (0, State.init) ∧
    (SetWebViewVituralHostName fsDir State.init 7 [104] [120] 0 (-1)).2.calls = [] ∧
    ¬ (SetWebViewVituralHostName fsDir State.init 7 [104] [120] 0 (-1)).1 < 0 := by
  decide

/-- C7: when the folder does not exist `SetWebViewVituralHostName` returns 0
and leaves the whole state as it was (no engine call); when it exists the
function makes exactly one engine call, `webview_set_virtual_host_name` on the
handle's instance with the same url, the absolute path of the folder as a
zero-terminated string and the same option, and returns the engine's code. -/
theorem C7_virtual_host_name (fs : FileSystem) (s : State) (handle : WebViewHandle)
    (url : CBuf) (folder : Path) (option engineCode : Int) :
    (fs.pathExists folder = false →
      SetWebViewVituralHostName fs s handle url folder option engineCode = (0, s)) ∧
    (fs.pathExists folder = true →
      SetWebViewVituralHostName fs s handle url folder option engineCode
        = (engineCode,
            ⟨s.contextStoreMapping,
             s.calls ++ [EngineCall.webview_set_virtual_host_name (toInstance handle) url
               (fs.absolute folder ++ [0]) option],
             s.invoked⟩)) := by
  unfold SetWebViewVituralHostName
  cases hex : fs.pathExists folder <;> simp [State.call]

/-- Witness of C7: the missing folder `x` and the existing folder `d` (absolute
path `/d`) with engine code -3. -/
theorem C7_virtual_host_name_witness :
    SetWebViewVituralHostName fsDir State.init 7 [104] [120] 2 (-3) = (0, State.init) ∧
    SetWebViewVituralHostName fsDir State.init 7 [104] [100] 2 (-3)
      = (-3, ⟨[], [] ++ [EngineCall.webview_set_virtual_host_name (toInstance 7) [104]
          (fsDir.absolute [100] ++ [0]) 2], []⟩) :=
  ⟨(C7_virtual_host_name fsDir State.init 7 [104] [120] 2 (-3)).1 (by decide),
   (C7_virtual_host_name fsDir State.init 7 [104] [100] 2 (-3)).2 (by decide)⟩

/-- C8: on a handle that holds a context record, `DispatchWebView` with `cbA`
and `argA` followed by `DispatchWebView` with `cbB` and `argB` leaves `cbB` as
the stored callback, schedules two trampolines and invokes nothing; when the
engine then runs the two trampolines, with `argA` and then `argB`, the only
callbacks invoked are `cbB` with `(h, argA)` and `cbB` with `(h, argB)`, so
`cbA` (when it is another function) is not invoked. -/
theorem C8_second_dispatch_overwrites_first (s : State) (h : WebViewHandle)
    (cbA cbB argA argB : Nat) (c : ContextStore)
    (hreg : s.contextStoreMapping.find h = some (some c)) :
    ∃ s2 : State,
      run s [Op.dispatch h (some cbA) argA, Op.dispatch h (some cbB) argB] = Outcome.ok s2 ∧
      s2.contextStoreMapping.find h = some (some ⟨some cbB⟩) ∧
      s2.invoked = s.invoked ∧
      s2.calls = s.calls ++ [EngineCall.webview_dispatch (toInstance h) argA,
        EngineCall.webview_dispatch (toInstance h) argB] ∧
      run s2 [Op.trampoline (toInstance h) argA, Op.trampoline (toInstance h) argB]
        = Outcome.ok ⟨s2.contextStoreMapping, s2.calls,
            s.invoked ++ [⟨cbB, h, argA⟩, ⟨cbB, h, argB⟩]⟩ ∧
      (cbA ≠ cbB → ∀ i ∈ [(⟨cbB, h, argA⟩ : Invocation), ⟨cbB, h, argB⟩], i.fn ≠ cbA) := by
  have hk : h ∈ s.contextStoreMapping.keys := find_mem_keys _ _ _ hreg
  have hA := DispatchWebView_of_record s h (some cbA) argA c hreg
  have hfA : (s.contextStoreMapping.assign h (some ⟨some cbA⟩)).find h = some (some ⟨some cbA⟩) :=
    Registry.find_assign_self _ _ _ hk
  have hkA : h ∈ (s.contextStoreMapping.assign h (some ⟨some cbA⟩)).keys := by
    rw [Registry.keys_assign]; exact hk
  have hB := DispatchWebView_of_record
    ⟨s.contextStoreMapping.assign h (some ⟨some cbA⟩),
      s.calls ++ [EngineCall.webview_dispatch (toInstance h) argA], s.invoked⟩
    h (some cbB) argB ⟨some cbA⟩ hfA
  have hfB : ((s.contextStoreMapping.assign h (some ⟨some cbA⟩)).assign h (some ⟨some cbB⟩)).find h
      = some (some ⟨some cbB⟩) := Registry.find_assign_self _ _ _ hkA
  refine ⟨⟨(s.contextStoreMapping.assign h (some ⟨some cbA⟩)).assign h (some ⟨some cbB⟩),
    s.calls ++ [EngineCall.webview_dispatch (toInstance h) argA]
      ++ [EngineCall.webview_dispatch (toInstance h) argB], s.invoked⟩, ?_, hfB, rfl, ?_, ?_, ?_⟩
  · simp only [run, step, hA, hB]
  · simp
  · have hT1 := trampoline_of_record
      ⟨(s.contextStoreMapping.assign h (some ⟨some cbA⟩)).assign h (some ⟨some cbB⟩),
        s.calls ++ [EngineCall.webview_dispatch (toInstance h) argA]
          ++ [EngineCall.webview_dispatch (toInstance h) argB], s.invoked⟩
      (toInstance h) argA cbB hfB
    have hT2 := trampoline_of_record
      ⟨(s.contextStoreMapping.assign h (some ⟨some cbA⟩)).assign h (some ⟨some cbB⟩),
        s.calls ++ [EngineCall.webview_dispatch (toInstance h) argA]
          ++ [EngineCall.webview_dispatch (toInstance h) argB],
        s.invoked ++ [⟨cbB, toHandle (toInstance h), argA⟩]⟩
      (toInstance h) argB cbB hfB
    simp only [run, step, hT1, hT2]
    simp [toHandle, toInstance]
  · intro hne i hi
    simp only [List.mem_cons, List.mem_singleton, List.not_mem_nil, or_false] at hi
    rcases hi with hi | hi <;> rw [hi] <;> exact fun e => hne e.symm

/-- Witness of C8: handle 7 after its creation, callbacks 1 and 2. -/
theorem C8_second_dispatch_overwrites_first_witness :
    ∃ s2 : State,
      run ⟨[(7, some ⟨none⟩)], [], []⟩ [Op.dispatch 7 (some 1) 10, Op.dispatch 7 (some 2) 20]
        = Outcome.ok s2 ∧
      s2.contextStoreMapping.find 7 = some (some ⟨some 2⟩) ∧
      s2.invoked = [] ∧
      s2.calls = [] ++ [EngineCall.webview_dispatch (toInstance 7) 10,
        EngineCall.webview_dispatch (toInstance 7) 20] ∧
      run s2 [Op.trampoline (toInstance 7) 10, Op.trampoline (toInstance 7) 20]
        = Outcome.ok ⟨s2.contextStoreMapping, s2.calls, [] ++ [⟨2, 7, 10⟩, ⟨2, 7, 20⟩]⟩ ∧
      ((1 : Nat) ≠ 2 → ∀ i ∈ [(⟨2, 7, 10⟩ : Invocation), ⟨2, 7, 20⟩], i.fn ≠ 1) :=
  C8_second_dispatch_overwrites_first ⟨[(7, some ⟨none⟩)], [], []⟩ 7 1 2 10 20 ⟨none⟩ (by decide)

/-- C9: on a handle that holds a context record, `DispatchWebView(h, fn, arg)`
is defined; it replaces the record's callback by `fn` whatever it was, adds or
removes no handle, makes exactly one engine call, `webview_dispatch` with the
instance of `h` and `arg`, and invokes no callback. In any later state in which
the record of `h` still holds `fn`, the trampoline run with the instance of `h`
and `arg` invokes exactly `fn` with `(h, arg)`, once, and changes nothing
else. -/
theorem C9_dispatch_stores_callback_and_trampoline_invokes_it (s : State) (h : WebViewHandle)
    (fn arg : Nat) (c : ContextStore) (hreg : s.contextStoreMapping.find h = some (some c)) :
    DispatchWebView s h (some fn) arg
      = Outcome.ok ⟨s.contextStoreMapping.assign h (some ⟨some fn⟩),
          s.calls ++ [EngineCall.webview_dispatch (toInstance h) arg], s.invoked⟩ ∧
    (s.contextStoreMapping.assign h (some ⟨some fn⟩)).find h = some (some ⟨some fn⟩) ∧
    (s.contextStoreMapping.assign h (some ⟨some fn⟩)).keys = s.contextStoreMapping.keys ∧
    trampoline (DispatchWebView s h (some fn) arg).state (toInstance h) arg
      = Outcome.ok ⟨s.contextStoreMapping.assign h (some ⟨some fn⟩),
          s.calls ++ [EngineCall.webview_dispatch (toInstance h) arg],
          s.invoked ++ [⟨fn, h, arg⟩]⟩ ∧
    ∀ s2 : State, s2.contextStoreMapping.find h = some (some ⟨some fn⟩) →
      trampoline s2 (toInstance h) arg
        = Outcome.ok ⟨s2.contextStoreMapping, s2.calls, s2.invoked ++ [⟨fn, h, arg⟩]⟩ := by
  have hk : h ∈ s.contextStoreMapping.keys := find_mem_keys _ _ _ hreg
  have hD := DispatchWebView_of_record s h (some fn) arg c hreg
  have hf : (s.contextStoreMapping.assign h (some ⟨some fn⟩)).find h = some (some ⟨some fn⟩) :=
    Registry.find_assign_self _ _ _ hk
  refine ⟨hD, hf, Registry.keys_assign _ _ _, ?_, ?_⟩
  · rw [hD]
    exact trampoline_of_record _ (toInstance h) arg fn hf
  · intro s2 h2
    exact trampoline_of_record s2 (toInstance h) arg fn h2

/-- Witness of C9: handle 7 holding the callback 1, dispatched with callback 2
and argument 20. -/
theorem C9_dispatch_stores_callback_and_trampoline_invokes_it_witness :
    DispatchWebView ⟨[(7, some ⟨some 1⟩), (9, some ⟨none⟩)], [], []⟩ 7 (some 2) 20
      = Outcome.ok ⟨[(7, some ⟨some 2⟩), (9, some ⟨none⟩)],
          [EngineCall.webview_dispatch 7 20], []⟩ ∧
    trampoline ⟨[(7, some ⟨some 2⟩), (9, some ⟨none⟩)], [EngineCall.webview_dispatch 7 20], []⟩
        7 20
      = Outcome.ok ⟨[(7, some ⟨some 2⟩), (9, some ⟨none⟩)],
          [EngineCall.webview_dispatch 7 20], [⟨2, 7, 20⟩]⟩ :=
  ⟨(C9_dispatch_stores_callback_and_trampoline_invokes_it
      ⟨[(7, some ⟨some 1⟩), (9, some ⟨none⟩)], [], []⟩ 7 2 20 ⟨some 1⟩ (by decide)).1,
   (C9_dispatch_stores_callback_and_trampoline_invokes_it
      ⟨[(7, some ⟨some 1⟩), (9, some ⟨none⟩)], [], []⟩ 7 2 20 ⟨some 1⟩ (by decide)).2.2.2.2
      ⟨[(7, some ⟨some 2⟩), (9, some ⟨none⟩)], [EngineCall.webview_dispatch 7 20], []⟩
      (by decide)⟩

/-- C10 (as stated, refuted): when the table already holds a record under the
address the engine hands back (here handle 7, created and then dispatched with
callback 3, and the engine returning address 7 again), the creation succeeds
but `insert` keeps that record: the callback under the returned handle is 3,
not null, and the freshly allocated record is dropped. -/
theorem C10_create_keeps_existing_record :
    run State.init [Op.create 0 0 7, Op.dispatch 7 (some 3) 0]
      = Outcome.ok ⟨[(7, some ⟨some 3⟩)],
          [EngineCall.webview_create 0 0, EngineCall.webview_dispatch 7 0], []⟩ ∧
    (CreateWebViewInstance ⟨[(7, some ⟨some 3⟩)],
        [EngineCall.webview_create 0 0, EngineCall.webview_dispatch 7 0], []⟩ 0 0 7).1 = 7 ∧
    (CreateWebViewInstance ⟨[(7, some ⟨some 3⟩)],
        [EngineCall.webview_create 0 0, EngineCall.webview_dispatch 7 0], []⟩ 0 0 7).2.contextStoreMapping.find 7
      = some (some ⟨some 3⟩) ∧
    (CreateWebViewInstance ⟨[(7, some ⟨some 3⟩)],
        [EngineCall.webview_create 0 0, EngineCall.webview_dispatch 7 0], []⟩ 0 0 7).2.contextStoreMapping.find 7
      ≠ some (some ContextStore.fresh) := by
  decide

/-- C10 (amended): after a successful creation the returned handle is the
address the engine returned and differs from `HANDLE_ERROR`; and when the
table held no entry under that address, the record stored under the returned
handle is the freshly allocated one, whose dispatch callback is null. -/
theorem C10_create_stores_fresh_record (s : State) (debug : Int) (wnd webviewInstance : Nat)
    (hw : webviewInstance ≠ 0) :
    (CreateWebViewInstance s debug wnd webviewInstance).1 = webviewInstance ∧
    (CreateWebViewInstance s debug wnd webviewInstance).1 ≠ HANDLE_ERROR ∧
    (CheckWebViewExists s webviewInstance = 0 →
      (CreateWebViewInstance s debug wnd webviewInstance).2.contextStoreMapping.find
          (CreateWebViewInstance s debug wnd webviewInstance).1
        = some (some ContextStore.fresh) ∧
      ContextStore.fresh.dispatchCallback = none) := by
  simp only [CreateWebViewInstance, hw, if_false, toHandle, HANDLE_ERROR]
  refine ⟨trivial, hw, ?_⟩
  intro habs
  exact ⟨Registry.find_insert_of_not_mem _ _ _ ((CheckWebViewExists_eq_zero_iff s _).1 habs), rfl⟩

/-- Witness of C10 (amended): the engine returns address 4096 on a table that
holds only handle 8. -/
theorem C10_create_stores_fresh_record_witness :
    (CreateWebViewInstance ⟨[(8, some ⟨some 3⟩)], [], []⟩ 1 0 4096).1 ≠ HANDLE_ERROR ∧
    (CreateWebViewInstance ⟨[(8, some ⟨some 3⟩)], [], []⟩ 1 0 4096).2.contextStoreMapping.find
        (CreateWebViewInstance ⟨[(8, some ⟨some 3⟩)], [], []⟩ 1 0 4096).1
      = some (some ContextStore.fresh) :=
  ⟨(C10_create_stores_fresh_record ⟨[(8, some ⟨some 3⟩)], [], []⟩ 1 0 4096 (by decide)).2.1,
   ((C10_create_stores_fresh_record ⟨[(8, some ⟨some 3⟩)], [], []⟩ 1 0 4096 (by decide)).2.2
      (by decide)).1⟩

/-- C11: `DestroyWebView` is total: for every handle it makes exactly one
engine call, `webview_destroy` on the native reference equal to the handle,
and invokes no callback. When the handle is not in the table the table is
left exactly as it was; in every case the entries left are exactly the
entries under the other handles, so a registered handle loses its record and
no other handle is touched. -/
theorem C11_destroy_absent_or_registered (s : State) (handle : WebViewHandle) :
    (DestroyWebView s handle).calls = s.calls ++ [EngineCall.webview_destroy handle] ∧
    toInstance handle = handle ∧
    (DestroyWebView s handle).invoked = s.invoked ∧
    (CheckWebViewExists s handle = 0 →
      (DestroyWebView s handle).contextStoreMapping = s.contextStoreMapping) ∧
    (∀ e, e ∈ (DestroyWebView s handle).contextStoreMapping
      ↔ e ∈ s.contextStoreMapping ∧ e.1 ≠ handle) ∧
    CheckWebViewExists (DestroyWebView s handle) handle = 0 ∧
    (∀ j, j ≠ handle →
      (DestroyWebView s handle).contextStoreMapping.find j = s.contextStoreMapping.find j ∧
      CheckWebViewExists (DestroyWebView s handle) j = CheckWebViewExists s j) := by
  refine ⟨rfl, rfl, rfl, ?_, ?_, ?_, ?_⟩
  · intro habs
    exact Registry.erase_of_not_mem _ _ ((CheckWebViewExists_eq_zero_iff s handle).1 habs)
  · intro e
    exact Registry.mem_erase_iff _ _ e
  · simp only [CheckWebViewExists, DestroyWebView, Registry.count_erase_self]
    rfl
  · intro j hj
    have hf : (s.contextStoreMapping.erase handle).find j = s.contextStoreMapping.find j :=
      Registry.find_erase_other _ _ _ (fun e => hj e.symm)
    refine ⟨hf, ?_⟩
    simp only [CheckWebViewExists, DestroyWebView]
    rw [Registry.count_eq_of_find_eq _ _ j hf]

/-- Witness of C11: handle 5 is not in the table, handle 7 is. -/
theorem C11_destroy_absent_or_registered_witness :
    (DestroyWebView ⟨[(7, some ⟨some 1⟩), (9, some ⟨none⟩)], [], []⟩ 5).contextStoreMapping
      = [(7, some ⟨some 1⟩), (9, some ⟨none⟩)] ∧
    (DestroyWebView ⟨[(7, some ⟨some 1⟩), (9, some ⟨none⟩)], [], []⟩ 5).calls
      = [] ++ [EngineCall.webview_destroy 5] ∧
    CheckWebViewExists (DestroyWebView ⟨[(7, some ⟨some 1⟩), (9, some ⟨none⟩)], [], []⟩ 7) 7
      = 0 ∧
    DestroyWebView ⟨[(7, some ⟨some 1⟩), (9, some ⟨none⟩)], [], []⟩ 7
      = ⟨[(9, some ⟨none⟩)], [EngineCall.webview_destroy 7], []⟩ :=
  ⟨(C11_destroy_absent_or_registered ⟨[(7, some ⟨some 1⟩), (9, some ⟨none⟩)], [], []⟩ 5).2.2.2.1
      (by decide),
   (C11_destroy_absent_or_registered ⟨[(7, some ⟨some 1⟩), (9, some ⟨none⟩)], [], []⟩ 5).1,
   (C11_destroy_absent_or_registered ⟨[(7, some ⟨some 1⟩), (9, some ⟨none⟩)], [], []⟩ 7).2.2.2.2.2.1,
   by decide⟩

/-- C12: when the output arrays have their declared 32, 48 and 48 bytes and
each text of the engine's descriptor ends in a zero within 32, 48 and 48
bytes, `GetWebViewVersionInfo` is defined (every copy stays inside its
array), makes the one engine call `webview_version`, copies the three numbers
and leaves in each array the descriptor's text followed by its zero, the
arrays keeping their sizes. -/
theorem C12_version_info_copied (s : State) (info : EngineVersionInfo)
    (outInfo : WebViewVersionInfo) (tv tp tb : List Nat)
    (hcv : outInfo.version_number.length = 32)
    (hcp : outInfo.pre_release.length = 48)
    (hcb : outInfo.build_metadata.length = 48)
    (hv : cString info.version_number = some tv) (hvl : tv.length < 32)
    (hp : cString info.pre_release = some tp) (hpl : tp.length < 48)
    (hb : cString info.build_metadata = some tb) (hbl : tb.length < 48) :
    ∃ out : WebViewVersionInfo,
      GetWebViewVersionInfo s info outInfo = (some out, s.call EngineCall.webview_version) ∧
      out.major = info.major ∧ out.minor = info.minor ∧ out.patch = info.patch ∧
      cString out.version_number = some tv ∧ out.version_number.length = 32 ∧
      cString out.pre_release = some tp ∧ out.pre_release.length = 48 ∧
      cString out.build_metadata = some tb ∧ out.build_metadata.length = 48 := by
  have hfv : tv.length < outInfo.version_number.length := by omega
  have hfp : tp.length < outInfo.pre_release.length := by omega
  have hfb : tb.length < outInfo.build_metadata.length := by omega
  refine ⟨⟨info.major, info.minor, info.patch,
    tv ++ [0] ++ outInfo.version_number.drop (tv.length + 1),
    tp ++ [0] ++ outInfo.pre_release.drop (tp.length + 1),
    tb ++ [0] ++ outInfo.build_metadata.drop (tb.length + 1)⟩, ?_, rfl, rfl, rfl,
    cString_terminated _ _ (cString_no_zero _ _ hv), ?_,
    cString_terminated _ _ (cString_no_zero _ _ hp), ?_,
    cString_terminated _ _ (cString_no_zero _ _ hb), ?_⟩
  · simp only [GetWebViewVersionInfo, strcpy_of_terminated _ _ tv hv hfv,
      strcpy_of_terminated _ _ tp hp hfp, strcpy_of_terminated _ _ tb hb hfb]
  · rw [strcpy_result_length _ _ hfv, hcv]
  · rw [strcpy_result_length _ _ hfp, hcp]
  · rw [strcpy_result_length _ _ hfb, hcb]

/-- Witness of C12: the descriptor of version 0.11.0 copied into a record
whose arrays held no zero before. -/
theorem C12_version_info_copied_witness :
    ∃ out : WebViewVersionInfo,
      GetWebViewVersionInfo State.init engineVersionSample outInfoSample
        = (some out, State.init.call EngineCall.webview_version) ∧
      out.major = engineVersionSample.major ∧ out.minor = engineVersionSample.minor ∧
      out.patch = engineVersionSample.patch ∧
      cString out.version_number = some [48, 46, 49, 49, 46, 48] ∧
      out.version_number.length = 32 ∧
      cString out.pre_release = some [] ∧ out.pre_release.length = 48 ∧
      cString out.build_metadata = some [] ∧ out.build_metadata.length = 48 :=
  C12_version_info_copied State.init engineVersionSample outInfoSample
    [48, 46, 49, 49, 46, 48] [] [] (by decide) (by decide) (by decide)
    (by decide) (by decide) (by decide) (by decide) (by decide) (by decide)

/-- C13: each forwarding operation leaves the table and the callbacks invoked
as they were and adds exactly one engine call: the primitive of the same
name on the native reference equal to the handle, with the other arguments
unchanged and in the same order; `GetWebViewWindow` returns what the engine
returned. Handle to reference to handle is the identity, and a successful
creation returns the address the engine returned. -/
theorem C13_forwarding_operations (s : State) (handle : WebViewHandle) (window w arg : Nat)
    (title url html js name seq result : CBuf) (width height hints status debug : Int)
    (fn : FnPtr) :
    toHandle (toInstance handle) = handle ∧
    toInstance (toHandle w) = w ∧
    toInstance handle = handle ∧
    (CreateWebViewInstance s debug window (w + 1)).1 = w + 1 ∧
    RunWebView s handle
      = ⟨s.contextStoreMapping, s.calls ++ [EngineCall.webview_run handle], s.invoked⟩ ∧
    RunWebView1 s handle
      = ⟨s.contextStoreMapping, s.calls ++ [EngineCall.webview_run1 handle], s.invoked⟩ ∧
    TerminateWebView s handle
      = ⟨s.contextStoreMapping, s.calls ++ [EngineCall.webview_terminate handle], s.invoked⟩ ∧
    GetWebViewWindow s handle window
      = (window,
          ⟨s.contextStoreMapping, s.calls ++ [EngineCall.webview_get_window handle],
            s.invoked⟩) ∧
    SetWebViewTitle s handle title
      = ⟨s.contextStoreMapping, s.calls ++ [EngineCall.webview_set_title handle title],
          s.invoked⟩ ∧
    SetWebViewSize s handle width height hints
      = ⟨s.contextStoreMapping,
          s.calls ++ [EngineCall.webview_set_size handle width height hints], s.invoked⟩ ∧
    NavigateWebView s handle url
      = ⟨s.contextStoreMapping, s.calls ++ [EngineCall.webview_navigate handle url],
          s.invoked⟩ ∧
    SetWebViewHTML s handle html
      = ⟨s.contextStoreMapping, s.calls ++ [EngineCall.webview_set_html handle html],
          s.invoked⟩ ∧
    InitWebView s handle js
      = ⟨s.contextStoreMapping, s.calls ++ [EngineCall.webview_init handle js], s.invoked⟩ ∧
    EvalWebView s handle js
      = ⟨s.contextStoreMapping, s.calls ++ [EngineCall.webview_eval handle js], s.invoked⟩ ∧
    BindWebView s handle name fn arg
      = ⟨s.contextStoreMapping, s.calls ++ [EngineCall.webview_bind handle name fn arg],
          s.invoked⟩ ∧
    UnBindWebView s handle name
      = ⟨s.contextStoreMapping, s.calls ++ [EngineCall.webview_unbind handle name],
          s.invoked⟩ ∧
    ReturnWebView s handle seq status result
      = ⟨s.contextStoreMapping,
          s.calls ++ [EngineCall.webview_return handle seq status result], s.invoked⟩ := by
  refine ⟨rfl, rfl, rfl, ?_, rfl, rfl, rfl, rfl, rfl, rfl, rfl, rfl, rfl, rfl, rfl, rfl, rfl⟩
  simp [CreateWebViewInstance, toHandle]

/-- C14: for two distinct handles `h` and `h1`, a creation that returns `h`,
`DestroyWebView(h)` and `DispatchWebView(h, fn, arg)` (whether or not `h` is
in the table) leave both what the table stores under `h1` (its record and the
callback in it) and the answer of `CheckWebViewExists(h1)` as they were. -/
theorem C14_instances_isolated (s : State) (h h1 : WebViewHandle) (hne : h ≠ h1)
    (debug : Int) (wnd webviewInstance arg : Nat) (fn : FnPtr) :
    ((CreateWebViewInstance s debug wnd webviewInstance).1 = h →
      (CreateWebViewInstance s debug wnd webviewInstance).2.contextStoreMapping.find h1
        = s.contextStoreMapping.find h1 ∧
      CheckWebViewExists (CreateWebViewInstance s debug wnd webviewInstance).2 h1
        = CheckWebViewExists s h1) ∧
    ((DestroyWebView s h).contextStoreMapping.find h1 = s.contextStoreMapping.find h1 ∧
      CheckWebViewExists (DestroyWebView s h) h1 = CheckWebViewExists s h1) ∧
    ((DispatchWebView s h fn arg).state.contextStoreMapping.find h1
        = s.contextStoreMapping.find h1 ∧
      CheckWebViewExists (DispatchWebView s h fn arg).state h1 = CheckWebViewExists s h1) := by
  have hcount : ∀ m : Registry, m.find h1 = s.contextStoreMapping.find h1 →
      ((m.count h1 : Nat) : Int) = ((s.contextStoreMapping.count h1 : Nat) : Int) := by
    intro m hm
    rw [Registry.count_eq_of_find_eq _ _ h1 hm]
  refine ⟨?_, ?_, ?_⟩
  · intro hret
    have hf : (CreateWebViewInstance s debug wnd webviewInstance).2.contextStoreMapping.find h1
        = s.contextStoreMapping.find h1 := by
      unfold CreateWebViewInstance at hret ⊢
      by_cases hw : webviewInstance = 0
      · simp only [hw, if_true]
      · simp only [hw, if_false] at hret ⊢
        rw [hret]
        exact Registry.find_insert_other _ _ _ _ hne
    exact ⟨hf, hcount _ hf⟩
  · have hf : (DestroyWebView s h).contextStoreMapping.find h1 = s.contextStoreMapping.find h1 :=
      Registry.find_erase_other _ _ _ hne
    exact ⟨hf, hcount _ hf⟩
  · have hidx : (s.contextStoreMapping.index h).find h1 = s.contextStoreMapping.find h1 :=
      Registry.find_insert_other _ _ _ _ hne
    have hf : (DispatchWebView s h fn arg).state.contextStoreMapping.find h1
        = s.contextStoreMapping.find h1 := by
      simp only [DispatchWebView]
      split
      · simp only [Outcome.state]
        rw [Registry.find_assign_other _ _ _ _ hne]
        exact hidx
      · simp only [Outcome.state]
        exact hidx
    exact ⟨hf, hcount _ hf⟩

/-- Witness of C14: handles 7 and 9, both registered, 9 holding callback 4; a
creation returning 7, the destroy of 7 and a dispatch on 7 leave the record
of 9 alone. -/
theorem C14_instances_isolated_witness :
    (CreateWebViewInstance ⟨[(9, some ⟨some 4⟩)], [], []⟩ 0 0 7).2.contextStoreMapping.find 9
      = some (some ⟨some 4⟩) ∧
    (DestroyWebView ⟨[(7, some ⟨none⟩), (9, some ⟨some 4⟩)], [], []⟩ 7).contextStoreMapping.find 9
      = (State.mk [(7, some ⟨none⟩), (9, some ⟨some 4⟩)] [] []).contextStoreMapping.find 9 ∧
    CheckWebViewExists
        (DispatchWebView ⟨[(7, some ⟨none⟩), (9, some ⟨some 4⟩)], [], []⟩ 7 (some 2) 0).state 9
      = CheckWebViewExists ⟨[(7, some ⟨none⟩), (9, some ⟨some 4⟩)], [], []⟩ 9 :=
  ⟨((C14_instances_isolated ⟨[(9, some ⟨some 4⟩)], [], []⟩ 7 9 (by decide) 0 0 7 0 none).1
      (by decide)).1,
   (C14_instances_isolated ⟨[(7, some ⟨none⟩), (9, some ⟨some 4⟩)], [], []⟩ 7 9 (by decide)
      0 0 7 0 (some 2)).2.1.1,
   (C14_instances_isolated ⟨[(7, some ⟨none⟩), (9, some ⟨some 4⟩)], [], []⟩ 7 9 (by decide)
      0 0 7 0 (some 2)).2.2.2⟩

end WebViewDLL
